import Mathlib

/-!
Shallow embedding of `src/bot.py` (telegram-transcriber-bot): the media
resolution, transcoding, model-singleton and reply-formatting pipeline of
`handle_media`, plus the `get_model` lazy singleton and the `/mode` command.

Python strings are modelled as Lean `String`; Python truthiness of optional
strings (`None` and `""` falsy) is modelled explicitly.  The effectful parts
of `handle_media` (file download, the ffmpeg subprocess, model construction
and inference, the wall clock) are abstracted into an `Env` record supplying
their outcomes; the handler itself is the pure control flow of lines 65-122
of `bot.py`, recording every externally visible effect in a `RunResult`.
-/

namespace Bot

/-- Python truthiness of an `Optional[str]`: `None` and `""` are falsy. -/
def strTruthy : Option String → Bool
  | none => false
  | some s => !(s = "")

/-- Python `a or b` on an `Optional[str]` `a`: yields `a` when truthy, else `b`. -/
def pyOrStr (o : Option String) (d : String) : String :=
  match o with
  | some s => if s = "" then d else s
  | none => d

/-- Python `str.split(sep)` for a single-character separator, over char lists.
`"".split(".") = [""]` and `"a..b".split(".") = ["a", "", "b"]`. -/
def splitOnChar (c : Char) : List Char → List (List Char)
  | [] => [[]]
  | x :: xs =>
    let r := splitOnChar c xs
    if x = c then [] :: r
    else
      match r with
      | [] => [[x]]
      | y :: ys => (x :: y) :: ys

/-- Python `name.split(".")[-1].lower()` (line 77 / line 83 of `bot.py`). -/
def extFromName (name : String) : String :=
  String.mk (((splitOnChar '.' name.data).getLastD name.data).map Char.toLower)

/-- Python `sub in s` (substring containment), over char lists. -/
def listContainsSub : List Char → List Char → Bool
  | [], sub => sub.isEmpty
  | x :: xs, sub => List.isPrefixOf sub (x :: xs) || listContainsSub xs sub

/-- Python `sub in s` on strings (used for `"audio" in mime_type`, line 81). -/
def strContainsSub (s sub : String) : Bool :=
  listContainsSub s.data sub.data

/-- Python `str.strip()` over the common whitespace characters (line 118). -/
def pyStrip (s : String) : String :=
  String.mk (((s.data.dropWhile Char.isWhitespace).reverse.dropWhile Char.isWhitespace).reverse)

/-- An inbound audio attachment (`msg.audio`): optional declared filename. -/
structure Audio where
  file_name : Option String
deriving DecidableEq, Repr

/-- An inbound document attachment (`msg.document`): optional MIME type and filename. -/
structure Document where
  mime_type : Option String
  file_name : Option String
deriving DecidableEq, Repr

/-- An inbound Telegram message, restricted to the attachment kinds
`handle_media` inspects.  `voice` / `video` record mere presence, the
other two carry the attributes the code reads. -/
structure Message where
  voice : Bool
  audio : Option Audio
  video : Bool
  document : Option Document
deriving DecidableEq, Repr

/-- The four recognized attachment kinds, in source priority order. -/
inductive MediaKind where
  | voiceNote
  | audioFile
  | videoFile
  | audioDoc
deriving DecidableEq, Repr

/-- Lines 70-86 of `bot.py`: the `if msg.voice / elif msg.audio / elif
msg.video / elif msg.document ...` cascade.  Returns the processed kind and
the suggested extension, or `none` when the `else` branch (guidance reply)
is taken. -/
def resolveMedia (msg : Message) : Option (MediaKind × String) :=
  if msg.voice then
    some (MediaKind.voiceNote, "ogg")
  else
    match msg.audio with
    | some a =>
      some (MediaKind.audioFile,
        if strTruthy a.file_name then extFromName (pyOrStr a.file_name "audio") else "mp3")
    | none =>
      if msg.video then
        some (MediaKind.videoFile, "mp4")
      else
        match msg.document with
        | some d =>
          match d.mime_type with
          | some mt =>
            if strContainsSub mt "audio" then
              some (MediaKind.audioDoc, extFromName (pyOrStr d.file_name "audio"))
            else none
          | none => none
        | none => none

/-- The presence of the fourth recognized kind: a document whose declared
MIME type contains the substring `audio` (line 81). -/
def hasAudioDocument (m : Message) : Bool :=
  match m.document with
  | some d =>
    match d.mime_type with
    | some mt => strContainsSub mt "audio"
    | none => false
  | none => false

/-- The loaded speech model (`WhisperModel(MODEL_SIZE, device=..., compute_type=...)`),
identified by its three construction parameters. -/
structure WhisperModel where
  model_size : String
  device : String
  compute_type : String
deriving DecidableEq, Repr

/-- The process-start configuration (lines 17-21) plus the two mutable
fields `MODE` / `TARGET_LANG` as read by one handler invocation. -/
structure Config where
  MODEL_SIZE : String
  DEVICE : String
  COMPUTE_TYPE : String
  TARGET_LANG : String
  MODE : String
deriving DecidableEq, Repr

/-- Lines 25-29 of `bot.py`.  The process-wide cache is the `Option
WhisperModel` state; `constructFails` abstracts whether the `WhisperModel`
constructor raises on this call.  Returns (call outcome, new cache state,
whether the construction routine ran on this call).  A raising constructor
never executes the assignment `model = ...`, so the cache is unchanged. -/
def get_model (cfg : Config) (constructFails : Bool) (st : Option WhisperModel) :
    Except Unit WhisperModel × Option WhisperModel × Bool :=
  match st with
  | some m => (Except.ok m, some m, false)
  | none =>
    if constructFails then (Except.error (), none, false)
    else
      let m : WhisperModel := ⟨cfg.MODEL_SIZE, cfg.DEVICE, cfg.COMPUTE_TYPE⟩
      (Except.ok m, some m, true)

/-- A sequence of `get_model` calls, one per entry of the failure-flag list,
threading the cache; returns the call outcomes, the final cache and the
total number of constructor runs. -/
def get_model_seq (cfg : Config) :
    List Bool → Option WhisperModel →
      List (Except Unit WhisperModel) × Option WhisperModel × Nat
  | [], st => ([], st, 0)
  | f :: fs, st =>
    let r := get_model cfg f st
    let rest := get_model_seq cfg fs r.2.1
    (r.1 :: rest.1, rest.2.1, (if r.2.2 then 1 else 0) + rest.2.2)

/-- The `/mode` usage reply (line 51). -/
def modeUsageReply : String := "השתמשו: /mode transcribe | /mode translate"

/-- Lines 45-51 of `bot.py`: `mode_cmd` over the argument list and the
current `MODE`; returns the new `MODE` and the reply text. -/
def mode_cmd (args : List String) (mode : String) : String × String :=
  match args with
  | a :: _ =>
    if a = "transcribe" ∨ a = "translate" then (a, "מצב עודכן ל־" ++ a)
    else (mode, modeUsageReply)
  | [] => (mode, modeUsageReply)

/-- The no-media guidance reply (line 85). -/
def noMediaReply : String := "שלחו לי הודעת קול / קובץ אודיו / וידאו לתמלול."

/-- The tool-missing reply (line 94). -/
def ffmpegMissingReply : String := "FFmpeg לא מותקן על השרת."

/-- The conversion-error reply (line 106). -/
def transcodeErrorReply : String := "שגיאה בהמרת אודיו."

/-- The empty-transcript placeholder (line 120). -/
def emptyTextPlaceholder : String := "(לא זוהה טקסט)"

/-- Lines 118-120 of `bot.py`: join the segment texts with no separator,
strip, and substitute the placeholder when empty. -/
def finalText (segs : List String) : String :=
  let text := pyStrip (String.join segs)
  if text = "" then emptyTextPlaceholder else text

/-- The parameters of one `whisper.transcribe(...)` invocation (lines 111-117). -/
structure ModelCall where
  audio_path : String
  language : Option String
  task : String
  beam_size : Nat
  vad_filter : Bool
deriving DecidableEq, Repr

/-- Outcomes of the external effects of one `handle_media` call: whether the
payload download succeeds, whether `ffmpeg` is on PATH, the transcoding
subprocess exit status and whether `out.wav` exists afterwards, whether the
model constructor raises, the inference outcome (segment texts or a raised
error), and the formatted timestamp. -/
structure Env where
  download_ok : Bool
  ffmpeg_available : Bool
  proc_returncode : Int
  out_wav_exists : Bool
  construct_fails : Bool
  inference : Except Unit (List String)
  stamp : String
deriving Repr

/-- Everything externally visible about one `handle_media` call: the reply
sent (if any), whether an exception propagated out of the handler, the
resolved media kind and extension, whether the scoped temporary directory
was acquired and whether it was released, whether the payload download ran,
how many times the transcoding subprocess ran, the model invocation (if
reached), whether control reached the model stage (past the transcode
check), and the final model cache. -/
structure RunResult where
  reply : Option String
  raised : Bool
  resolved : Option (MediaKind × String)
  tmpAcquired : Bool
  tmpReleased : Bool
  downloaded : Bool
  transcodeCalls : Nat
  reachedModelStage : Bool
  modelCall : Option ModelCall
  modelState : Option WhisperModel
deriving DecidableEq, Repr

/-- Lines 65-122 of `bot.py`: the full `handle_media` control flow.  The
`with tempfile.TemporaryDirectory()` block releases the directory on every
exit, including exception propagation, so every branch entered after
acquisition has `tmpReleased := true`. -/
def handle_media (cfg : Config) (mstate : Option WhisperModel) (env : Env)
    (msg : Option Message) : RunResult :=
  match msg with
  | none =>
    ⟨none, false, none, false, false, false, 0, false, none, mstate⟩
  | some m =>
    match resolveMedia m with
    | none =>
      ⟨some noMediaReply, false, none, false, false, false, 0, false, none, mstate⟩
    | some r =>
      if env.download_ok = false then
        ⟨none, true, some r, true, true, false, 0, false, none, mstate⟩
      else if env.ffmpeg_available = false then
        ⟨some ffmpegMissingReply, false, some r, true, true, true, 0, false, none, mstate⟩
      else if env.proc_returncode ≠ 0 ∨ env.out_wav_exists = false then
        ⟨some transcodeErrorReply, false, some r, true, true, true, 1, false, none, mstate⟩
      else
        match get_model cfg env.construct_fails mstate with
        | (Except.error _, st, _) =>
          ⟨none, true, some r, true, true, true, 1, true, none, st⟩
        | (Except.ok _, st, _) =>
          let call : ModelCall :=
            ⟨"out.wav",
             if cfg.TARGET_LANG = "" then none else some cfg.TARGET_LANG,
             if cfg.MODE = "translate" then "translate" else "transcribe",
             5, true⟩
          match env.inference with
          | Except.error _ =>
            ⟨none, true, some r, true, true, true, 1, true, some call, st⟩
          | Except.ok segs =>
            ⟨some ("📝 " ++ env.stamp ++ "\n" ++ finalText segs),
             false, some r, true, true, true, 1, true, some call, st⟩

/-- A fixed configuration: the documented defaults of lines 17-21. -/
def cfg0 : Config := ⟨"small", "cpu", "int8", "he", "transcribe"⟩

/-- A fixed environment for a fully successful run. -/
def env0 : Env := ⟨true, true, 0, true, false, Except.ok ["hello ", "world"], "2026-10-12 12:00"⟩

/-- A fixed voice-note message. -/
def msgVoice : Message := ⟨true, none, false, none⟩

/-- `get_model` on a warm cache returns the cached handle, leaves the cache
unchanged and never runs the constructor, whatever the failure flag. -/
theorem get_model_cached (cfg : Config) (f : Bool) (m : WhisperModel) :
    get_model cfg f (some m) = (Except.ok m, some m, false) := rfl

/-- A whole call sequence against a warm cache: every call returns the cached
handle and the constructor never runs. -/
theorem get_model_seq_cached (cfg : Config) (fs : List Bool) (m : WhisperModel) :
    get_model_seq cfg fs (some m) = (fs.map fun _ => Except.ok m, some m, 0) := by
  induction fs with
  | nil => rfl
  | cons f fs ih => simp [get_model_seq, get_model, ih]

/-- Claim C6: the first `get_model` call constructs the model from the three
process-start parameters and caches it; over any call sequence whose first
call succeeds, the constructor runs exactly once, the cache ends up holding
the constructed handle, and every call returns that identical handle. -/
theorem get_model_singleton (cfg : Config) (fs : List Bool) :
    (get_model_seq cfg (false :: fs) none).2.2 = 1 ∧
    (get_model_seq cfg (false :: fs) none).2.1 =
      some ⟨cfg.MODEL_SIZE, cfg.DEVICE, cfg.COMPUTE_TYPE⟩ ∧
    ∀ x ∈ (get_model_seq cfg (false :: fs) none).1,
      x = Except.ok (⟨cfg.MODEL_SIZE, cfg.DEVICE, cfg.COMPUTE_TYPE⟩ : WhisperModel) := by
  refine ⟨?_, ?_, ?_⟩ <;>
    simp [get_model_seq, get_model, get_model_seq_cached]

/-- Witness for C6: three calls, the last two with a failing constructor,
still construct exactly once. -/
theorem get_model_singleton_witness :
    (get_model_seq cfg0 [false, true, true] none).2.2 = 1 :=
  (get_model_singleton cfg0 [true, true]).1

/-- Claim C7: a failed construction inside `get_model` leaves the cache
unset (the state after the failing call is still `none`), so a later
successful call runs the constructor again and fills the cache. -/
theorem get_model_failure_leaves_cache_unset (cfg : Config) :
    get_model cfg true none = (Except.error (), none, false) ∧
    (get_model cfg false none).2.2 = true ∧
    (get_model cfg false none).2.1 =
      some ⟨cfg.MODEL_SIZE, cfg.DEVICE, cfg.COMPUTE_TYPE⟩ :=
  ⟨rfl, rfl, rfl⟩

/-- Claim C8: `/mode` with no argument or with an argument other than
exactly `transcribe` / `translate` leaves the stored mode unchanged; a valid
argument overwrites unconditionally, so `translate` then `transcribe`
round-trips the mode to `transcribe`. -/
theorem mode_cmd_validation (args : List String) (mode : String) :
    ((args = [] ∨ ∃ a rest, args = a :: rest ∧ a ≠ "transcribe" ∧ a ≠ "translate") →
      (mode_cmd args mode).1 = mode) ∧
    (∀ a rest, args = a :: rest → (a = "transcribe" ∨ a = "translate") →
      (mode_cmd args mode).1 = a) ∧
    (mode_cmd ["transcribe"] (mode_cmd ["translate"] mode).1).1 = "transcribe" := by
  refine ⟨?_, ?_, rfl⟩
  · rintro (rfl | ⟨a, rest, rfl, h1, h2⟩)
    · rfl
    · simp [mode_cmd, h1, h2]
  · rintro a rest rfl h
    simp [mode_cmd, h]

/-- Witness for C8: an unrecognized value is rejected and the mode kept. -/
theorem mode_cmd_validation_witness :
    (mode_cmd ["bogus"] "translate").1 = "translate" :=
  (mode_cmd_validation ["bogus"] "translate").1
    (Or.inr ⟨"bogus", [], rfl, by decide, by decide⟩)

/-- Claim C10: an update with no message object returns silently — no reply
at all, no pipeline step, state untouched — unlike the no-media branch,
which does reply with the guidance message. -/
theorem no_message_silent_return (cfg : Config) (st : Option WhisperModel) (env : Env) :
    handle_media cfg st env none =
      ⟨none, false, none, false, false, false, 0, false, none, st⟩ ∧
    (handle_media cfg st env (some ⟨false, none, false, none⟩)).reply = some noMediaReply ∧
    (some noMediaReply ≠ (none : Option String)) :=
  ⟨rfl, rfl, by simp⟩

/-- Claim C1: attachment kinds are checked in the fixed priority order voice
note, audio file, video file, audio-MIME document, and only the first kind
present is processed; when none of the four kinds is present the handler
replies with the guidance message and performs no pipeline step (no
download, no transcode subprocess, no model call). -/
theorem media_priority_and_guidance (cfg : Config) (st : Option WhisperModel)
    (env : Env) (m : Message) :
    (m.voice = true → (resolveMedia m).map Prod.fst = some MediaKind.voiceNote) ∧
    (m.voice = false → m.audio.isSome = true →
      (resolveMedia m).map Prod.fst = some MediaKind.audioFile) ∧
    (m.voice = false → m.audio = none → m.video = true →
      (resolveMedia m).map Prod.fst = some MediaKind.videoFile) ∧
    (m.voice = false → m.audio = none → m.video = false → hasAudioDocument m = true →
      (resolveMedia m).map Prod.fst = some MediaKind.audioDoc) ∧
    (m.voice = false → m.audio = none → m.video = false → hasAudioDocument m = false →
      handle_media cfg st env (some m) =
        ⟨some noMediaReply, false, none, false, false, false, 0, false, none, st⟩) := by
  refine ⟨fun hv => ?_, fun hv ha => ?_, fun hv ha hvid => ?_,
    fun hv ha hvid hd => ?_, fun hv ha hvid hd => ?_⟩
  · simp [resolveMedia, hv]
  · rcases h : m.audio with _ | a
    · rw [h] at ha; simp at ha
    · simp [resolveMedia, hv, h]
  · simp [resolveMedia, hv, ha, hvid]
  · rcases h : m.document with _ | d
    · simp [hasAudioDocument, h] at hd
    · rcases h2 : d.mime_type with _ | mt
      · simp [hasAudioDocument, h, h2] at hd
      · simp only [hasAudioDocument, h, h2] at hd
        simp [resolveMedia, hv, ha, hvid, h, h2, hd]
  · have hnone : resolveMedia m = none := by
      rcases h : m.document with _ | d
      · simp [resolveMedia, hv, ha, hvid, h]
      · rcases h2 : d.mime_type with _ | mt
        · simp [resolveMedia, hv, ha, hvid, h, h2]
        · simp only [hasAudioDocument, h, h2] at hd
          simp [resolveMedia, hv, ha, hvid, h, h2, hd]
    simp [handle_media, hnone]

/-- Witness for C1: a message carrying all four attachment kinds at once is
resolved as a voice note, and a message with none of them gets the guidance
reply with no pipeline step. -/
theorem media_priority_and_guidance_witness :
    (resolveMedia ⟨true, some ⟨some "a.mp3"⟩, true, some ⟨some "audio/ogg", none⟩⟩).map
        Prod.fst = some MediaKind.voiceNote ∧
    handle_media cfg0 none env0
        (some ⟨false, none, false, some ⟨some "video/mp4", some "b.wav"⟩⟩) =
      ⟨some noMediaReply, false, none, false, false, false, 0, false, none, none⟩ :=
  ⟨(media_priority_and_guidance cfg0 none env0
      ⟨true, some ⟨some "a.mp3"⟩, true, some ⟨some "audio/ogg", none⟩⟩).1 rfl,
   (media_priority_and_guidance cfg0 none env0
      ⟨false, none, false, some ⟨some "video/mp4", some "b.wav"⟩⟩).2.2.2.2
      rfl rfl rfl (by decide)⟩

/-- Counterexample to C9: with no declared filename, an audio file defaults
to extension `mp3` (line 77) but an audio-MIME document defaults to `audio`
(line 83) — the defaults are not the same. -/
theorem doc_ext_default_counterexample :
    resolveMedia ⟨false, some ⟨none⟩, false, none⟩ = some (MediaKind.audioFile, "mp3") ∧
    resolveMedia ⟨false, none, false, some ⟨some "audio/ogg", none⟩⟩ =
      some (MediaKind.audioDoc, "audio") ∧
    ("mp3" : String) ≠ "audio" := by
  refine ⟨by decide, by decide, by decide⟩

/-- Claim C9 (amended): for a document whose MIME type contains `audio` and
that declares a (non-empty) filename, the extension hint is derived exactly
as for an audio file — the filename's suffix lower-cased; but the
no-filename defaults differ: `audio` for a document, `mp3` for an audio
file. -/
theorem doc_ext_derivation (name mt : String)
    (hmt : strContainsSub mt "audio" = true) (hname : name ≠ "") :
    resolveMedia ⟨false, none, false, some ⟨some mt, some name⟩⟩ =
      some (MediaKind.audioDoc, extFromName name) ∧
    resolveMedia ⟨false, some ⟨some name⟩, false, none⟩ =
      some (MediaKind.audioFile, extFromName name) ∧
    resolveMedia ⟨false, none, false, some ⟨some mt, none⟩⟩ =
      some (MediaKind.audioDoc, "audio") ∧
    resolveMedia ⟨false, some ⟨none⟩, false, none⟩ =
      some (MediaKind.audioFile, "mp3") := by
  refine ⟨?_, ?_, ?_, by decide⟩
  · simp [resolveMedia, hmt, pyOrStr, hname]
  · simp [resolveMedia, strTruthy, pyOrStr, hname]
  · simp [resolveMedia, hmt, pyOrStr]
    decide

/-- Witness for amended C9: `Track.MP3` yields `mp3` for both kinds. -/
theorem doc_ext_derivation_witness :
    resolveMedia ⟨false, none, false, some ⟨some "audio/mpeg", some "Track.MP3"⟩⟩ =
      some (MediaKind.audioDoc, extFromName "Track.MP3") ∧
    resolveMedia ⟨false, some ⟨some "Track.MP3"⟩, false, none⟩ =
      some (MediaKind.audioFile, extFromName "Track.MP3") :=
  ⟨(doc_ext_derivation "Track.MP3" "audio/mpeg" (by decide) (by decide)).1,
   (doc_ext_derivation "Track.MP3" "audio/mpeg" (by decide) (by decide)).2.1⟩

/-- A fixed environment where the transcoder exits zero but `out.wav` is
missing. -/
def envZeroMissing : Env := ⟨true, true, 0, false, false, Except.ok [], "2026-10-12 12:00"⟩

/-- Claim C2: on every successful run the reply is the fixed timestamp
header followed by the segment texts joined in order with no separator and
stripped, with the fixed placeholder substituted when the stripped join is
empty — so the body is never empty; and `["hello ", "world"]` joins to
`"hello world"`. -/
theorem reply_format_and_nonempty (cfg : Config) (st : Option WhisperModel)
    (env : Env) (m : Message) (segs : List String)
    (hres : (resolveMedia m).isSome = true)
    (hdl : env.download_ok = true)
    (hff : env.ffmpeg_available = true)
    (hrc : env.proc_returncode = 0)
    (hout : env.out_wav_exists = true)
    (hcf : env.construct_fails = false)
    (hinf : env.inference = Except.ok segs) :
    (handle_media cfg st env (some m)).reply =
      some ("📝 " ++ env.stamp ++ "\n" ++ finalText segs) ∧
    finalText segs ≠ "" ∧
    finalText ["hello ", "world"] = "hello world" := by
  refine ⟨?_, ?_, by decide⟩
  · rcases hr : resolveMedia m with _ | r
    · rw [hr] at hres; simp at hres
    · rcases st with _ | w <;>
        simp [handle_media, hr, hdl, hff, hrc, hout, hcf, hinf, get_model]
  · unfold finalText
    by_cases h : pyStrip (String.join segs) = ""
    · simp only [h, if_pos]
      decide
    · simp only [if_neg h]
      exact h

/-- Witness for C2: a concrete end-to-end successful run. -/
theorem reply_format_and_nonempty_witness :
    (handle_media cfg0 none env0 (some msgVoice)).reply =
      some ("📝 " ++ "2026-10-12 12:00" ++ "\n" ++ finalText ["hello ", "world"]) ∧
    finalText ["hello ", "world"] ≠ "" :=
  ⟨(reply_format_and_nonempty cfg0 none env0 msgVoice ["hello ", "world"]
      (by decide) rfl rfl rfl rfl rfl rfl).1,
   (reply_format_and_nonempty cfg0 none env0 msgVoice ["hello ", "world"]
      (by decide) rfl rfl rfl rfl rfl rfl).2.1⟩

/-- Claim C3: once a request reaches the transcode step, it proceeds past it
(to the model stage) exactly when the subprocess exits zero AND `out.wav`
exists afterwards; any other combination — including zero exit with missing
output — yields the fixed conversion-error reply, exactly one subprocess
invocation (no retry), no model call, and a normal (non-raising) return. -/
theorem transcode_success_criterion (cfg : Config) (st : Option WhisperModel)
    (env : Env) (m : Message)
    (hres : (resolveMedia m).isSome = true)
    (hdl : env.download_ok = true)
    (hff : env.ffmpeg_available = true) :
    ((handle_media cfg st env (some m)).reachedModelStage = true ↔
      (env.proc_returncode = 0 ∧ env.out_wav_exists = true)) ∧
    (¬(env.proc_returncode = 0 ∧ env.out_wav_exists = true) →
      (handle_media cfg st env (some m)).reply = some transcodeErrorReply ∧
      (handle_media cfg st env (some m)).transcodeCalls = 1 ∧
      (handle_media cfg st env (some m)).modelCall = none ∧
      (handle_media cfg st env (some m)).raised = false) := by
  rcases hr : resolveMedia m with _ | r
  · rw [hr] at hres; simp at hres
  · by_cases hc : env.proc_returncode = 0 ∧ env.out_wav_exists = true
    · obtain ⟨h1, h2⟩ := hc
      have hstage : (handle_media cfg st env (some m)).reachedModelStage = true := by
        rcases hg : get_model cfg env.construct_fails st with ⟨e, st', b⟩
        rcases e with _ | w
        · simp [handle_media, hr, hdl, hff, h1, h2, hg]
        · rcases hi : env.inference with _ | segs <;>
            simp [handle_media, hr, hdl, hff, h1, h2, hg, hi]
      exact ⟨iff_of_true hstage ⟨h1, h2⟩, fun hn => absurd ⟨h1, h2⟩ hn⟩
    · have hcond : env.proc_returncode ≠ 0 ∨ env.out_wav_exists = false := by
        rcases Decidable.em (env.proc_returncode = 0) with h1 | h1
        · right
          rcases h2 : env.out_wav_exists with _ | _
          · rfl
          · exact absurd ⟨h1, h2⟩ hc
        · exact Or.inl h1
      refine ⟨?_, fun _ => ?_⟩ <;>
        simp [handle_media, hr, hdl, hff, hcond, hc]

/-- Witness for C3: zero exit status with a missing output file is treated
as failure and produces the conversion-error reply. -/
theorem transcode_success_criterion_witness :
    (handle_media cfg0 none envZeroMissing (some msgVoice)).reply =
      some transcodeErrorReply :=
  ((transcode_success_criterion cfg0 none envZeroMissing msgVoice
      (by decide) rfl rfl).2 (by decide)).1

/-- Claim C4: whenever the model is invoked, the task is `translate` exactly
when the current mode is `translate` and `transcribe` otherwise, the
language is the current preferred language or unset when it is empty, the
beam width is 5 and voice-activity filtering is on. -/
theorem model_call_parameters (cfg : Config) (st : Option WhisperModel)
    (env : Env) (msg : Option Message) (c : ModelCall)
    (h : (handle_media cfg st env msg).modelCall = some c) :
    c.task = (if cfg.MODE = "translate" then "translate" else "transcribe") ∧
    c.language = (if cfg.TARGET_LANG = "" then none else some cfg.TARGET_LANG) ∧
    c.beam_size = 5 ∧ c.vad_filter = true := by
  rcases msg with _ | m
  · simp [handle_media] at h
  · rcases hr : resolveMedia m with _ | r
    · simp [handle_media, hr] at h
    · simp only [handle_media, hr] at h
      split at h
      · simp at h
      · split at h
        · simp at h
        · split at h
          · simp at h
          · rcases hg : get_model cfg env.construct_fails st with ⟨e, st', b⟩
            rcases e with _ | w
            · rw [hg] at h; simp at h
            · rw [hg] at h
              rcases hi : env.inference with _ | segs <;> rw [hi] at h
              · have hc2 := Option.some.inj h
                subst hc2
                exact ⟨rfl, rfl, rfl, rfl⟩
              · have hc2 := Option.some.inj h
                subst hc2
                exact ⟨rfl, rfl, rfl, rfl⟩

/-- Witness for C4: the concrete successful run invokes the model with
task `transcribe`, language `he`, beam width 5 and VAD filtering on. -/
theorem model_call_parameters_witness :
    (⟨"out.wav", some "he", "transcribe", 5, true⟩ : ModelCall).task =
      (if cfg0.MODE = "translate" then "translate" else "transcribe") ∧
    (⟨"out.wav", some "he", "transcribe", 5, true⟩ : ModelCall).language =
      (if cfg0.TARGET_LANG = "" then none else some cfg0.TARGET_LANG) ∧
    (⟨"out.wav", some "he", "transcribe", 5, true⟩ : ModelCall).beam_size = 5 ∧
    (⟨"out.wav", some "he", "transcribe", 5, true⟩ : ModelCall).vad_filter = true :=
  model_call_parameters cfg0 none env0 (some msgVoice)
    ⟨"out.wav", some "he", "transcribe", 5, true⟩ rfl

/-- Claim C5: every run that acquires the scoped temporary directory
releases it, on every exit path — success, download failure, tool missing,
transcode failure, model-construction failure and inference failure alike. -/
theorem tmpdir_released_on_every_path (cfg : Config) (st : Option WhisperModel)
    (env : Env) (msg : Option Message)
    (h : (handle_media cfg st env msg).tmpAcquired = true) :
    (handle_media cfg st env msg).tmpReleased = true := by
  rcases msg with _ | m
  · simp [handle_media] at h
  · rcases hr : resolveMedia m with _ | r
    · simp [handle_media, hr] at h
    · simp only [handle_media, hr]
      repeat' split
      all_goals rfl

/-- Witness for C5: the concrete successful run releases the directory. -/
theorem tmpdir_released_witness :
    (handle_media cfg0 none env0 (some msgVoice)).tmpReleased = true :=
  tmpdir_released_on_every_path cfg0 none env0 (some msgVoice) rfl

end Bot
